import Mathlib

/-!
Verification development for the TikTokLive relay server.

We give a shallow embedding of the core fan-out subsystem:
`TikTokRoom` (src/api/app/core/tiktok/room.py), `TikTokRoomPool`
(src/api/app/core/tiktok/pool.py), `ClientStore`
(src/api/app/core/ws/client_store.py) and `WebSocketManager`
(src/api/app/core/ws/ws_manager.py).

Modelling conventions:
* A WebSocket is identified by a natural number.  The mutable transport
  state that the code reads and writes (`ws.client_state` and the
  behaviour of `ws.send_text`) is collected into a `World` record;
  operations thread the world explicitly and report the list of
  messages actually delivered plus whether a non-RuntimeError
  exception propagated.
* Pydantic models become plain records.  The JSON payload dict of an
  event is treated as an opaque `String`; the empty dict is the empty
  string.  `model_dump_json` maps record fields one-to-one, so we
  reason at the record level.
* Python dicts keyed by strings become association lists with
  insertion-order semantics (`alookup`, `aupdate`, `aerase`).
* The upstream library client (TikTokLive) is out of scope; its
  observable outcomes (liveness, connect success, disconnect raising)
  are oracle parameters.  `connection.disconnect()` invocations are
  counted in the room record.
-/

/-- Outcome of one `ws.send_text` call on a given socket:
success, a RuntimeError whose message contains
"close message has been sent", some other RuntimeError, or a
non-RuntimeError exception. -/
inductive SendOutcome where
  | ok
  | rtClose
  | rtOther
  | exc
deriving DecidableEq, Repr

/-- The transport-and-upstream world threaded through the stateful
operations: which sockets are in `ClientState.CLOSED`, how
`ws.send_text` behaves on each socket, and whether
`connection.disconnect()` raises. -/
structure World where
  closed : Nat → Bool
  outcome : Nat → SendOutcome
  disconnectRaises : Bool

/-- The `RoomMessage` pydantic model of room.py: the envelope sent on a
viewer channel, with its `type`, `unique_id`, `data` and `name`
fields. -/
structure RoomMessage where
  type : String
  unique_id : String
  data : String
  name : String
deriving DecidableEq, Repr

/-- The `TikTokEvent` envelope of room.py: a forwarded upstream event.
Its `type` field is the literal of the source, `"tiktok_event"`. -/
def TikTokEventMsg (unique_id name data : String) : RoomMessage :=
  { type := "tiktok_event", unique_id := unique_id, data := data, name := name }

/-- The `ControlEvent` envelope of room.py, `type = "room_event"`, with
a default-empty `data` dict. -/
def ControlEventMsg (unique_id name : String) : RoomMessage :=
  { type := "room_event", unique_id := unique_id, data := "", name := name }

/-- An upstream `BaseEvent`: `name` is `e.get_type()`, `data` the
serialized `e.to_dict()` payload, `has_to_dict` models
`hasattr(e, 'to_dict')`. -/
structure BaseEvent where
  name : String
  data : String
  has_to_dict : Bool
deriving DecidableEq, Repr

/-- The payload dict computed inside `event_forwarder`:
`e.to_dict(casing=Casing.SNAKE) if hasattr(e, 'to_dict') else` the
empty dict. -/
def eventData (e : BaseEvent) : String :=
  if e.has_to_dict then e.data else ""

/-- The `RoomClient` pydantic model: a subscriber, with its random hex
`id`, its WebSocket, and the room `unique_id`.  The `account` field is
carried for specification purposes only: in the source the account
name is the `ClientStore` key passed alongside the client by
`WebSocketManager`. -/
structure RoomClient where
  id : Nat
  ws : Nat
  unique_id : String
  account : String
deriving DecidableEq, Repr

/-- The `TikTokRoom` state: its `unique_id`, the values of the
`__clients` dict (keyed by client id, in insertion order), and the
number of `connection.disconnect()` invocations made so far. -/
structure TikTokRoom where
  unique_id : String
  members : List RoomClient
  disconnects : Nat
deriving DecidableEq, Repr

/-- The `clients` property: `len(self._clients)`. -/
def TikTokRoom.clients (r : TikTokRoom) : Nat := r.members.length

/-- Result of a message-sending operation: the new world, the list of
`(ws, message)` pairs actually delivered, and whether an exception
propagated out of the operation. -/
structure SendRes where
  world : World
  sent : List (Nat × RoomMessage)
  err : Bool

/-- `TikTokRoom._send_message`: returns immediately if the socket is in
`ClientState.CLOSED`; otherwise awaits `ws.send_text`.  A RuntimeError
whose message contains "close message has been sent" is caught and the
socket is marked closed; any other RuntimeError is caught and ignored
(the `if` inside the handler simply does not fire); a non-RuntimeError
exception propagates. -/
def TikTokRoom.send_message (w : World) (ws : Nat) (msg : RoomMessage) : SendRes :=
  if w.closed ws then ⟨w, [], false⟩
  else
    match w.outcome ws with
    | .ok => ⟨w, [(ws, msg)], false⟩
    | .rtClose =>
        ⟨{ w with closed := fun n => if n = ws then true else w.closed n }, [], false⟩
    | .rtOther => ⟨w, [], false⟩
    | .exc => ⟨w, [], true⟩

/-- The loop body of `event_forwarder` in `register_events`: iterate
the snapshot, computing the payload and name from the event and
sending a `TikTokEvent` envelope to each client; an exception from a
send aborts the remaining iterations and propagates. -/
def forwardLoop (w : World) (uid : String) (e : BaseEvent) :
    List RoomClient → SendRes
  | [] => ⟨w, [], false⟩
  | c :: rest =>
    let r := TikTokRoom.send_message w c.ws (TikTokEventMsg uid e.name (eventData e))
    if r.err then ⟨r.world, r.sent, true⟩
    else
      let r2 := forwardLoop r.world uid e rest
      ⟨r2.world, r.sent ++ r2.sent, r2.err⟩

/-- `event_forwarder`: fan out one upstream event over a snapshot copy
of the `__clients` dict (`self._clients` returns `.copy()`). -/
def event_forwarder (w : World) (room : TikTokRoom) (e : BaseEvent) : SendRes :=
  forwardLoop w room.unique_id e room.members

/-- Result of an operation that may mutate one room. -/
structure LeaveRes where
  world : World
  room : TikTokRoom
  sent : List (Nat × RoomMessage)
  err : Bool

/-- `TikTokRoom.leave`: send the `ControlEvent` (`"end"` if the `end`
flag is set, else `"leave"`), then pop the client id from `__clients`.
If the send raises, the pop is not reached. -/
def TikTokRoom.leave (w : World) (room : TikTokRoom) (c : RoomClient)
    (endFlag : Bool) : LeaveRes :=
  let s := TikTokRoom.send_message w c.ws
    (ControlEventMsg room.unique_id (if endFlag then "end" else "leave"))
  if s.err then ⟨s.world, room, s.sent, true⟩
  else ⟨s.world, { room with members := room.members.filter (fun m => !(m.id == c.id)) },
        s.sent, false⟩

/-- The loop of `TikTokRoom.kill` (also the body of `end_handler`):
force-leave, with the end flag, every client of a snapshot.  An
exception from a leave aborts the rest of the loop. -/
def killLoop (w : World) (room : TikTokRoom) : List RoomClient → LeaveRes
  | [] => ⟨w, room, [], false⟩
  | c :: rest =>
    let l := TikTokRoom.leave w room c true
    if l.err then l
    else
      let l2 := killLoop l.world l.room rest
      ⟨l2.world, l2.room, l.sent ++ l2.sent, l2.err⟩

/-- `TikTokRoom.kill`: force-leave every client of the snapshot
`self._clients.values()`, then await `connection.disconnect()`
unconditionally (counted; it may itself raise). -/
def TikTokRoom.kill (w : World) (room : TikTokRoom) : LeaveRes :=
  let l := killLoop w room room.members
  if l.err then l
  else ⟨l.world, { l.room with disconnects := l.room.disconnects + 1 }, l.sent,
        l.world.disconnectRaises⟩

section AssocList

variable {β : Type}

/-- Lookup in a string-keyed association list (Python dict access). -/
def alookup : List (String × β) → String → Option β
  | [], _ => none
  | (k, v) :: rest, a => if k = a then some v else alookup rest a

/-- Replace the value at an existing key (dict item assignment on a
present key). -/
def aupdate : List (String × β) → String → β → List (String × β)
  | [], _, _ => []
  | p :: rest, k, v =>
    if p.1 = k then (p.1, v) :: aupdate rest k v else p :: aupdate rest k v

/-- Dict item assignment: update if the key is present, else append
(insertion order). -/
def ainsert (s : List (String × β)) (k : String) (v : β) : List (String × β) :=
  if (alookup s k).isSome then aupdate s k v else s ++ [(k, v)]

/-- Dict `pop(key, None)`: drop every entry with the key. -/
def aerase : List (String × β) → String → List (String × β)
  | [], _ => []
  | p :: rest, k => if p.1 = k then aerase rest k else p :: aerase rest k

end AssocList

/-- A fresh `TikTokRoom` as constructed at the end of
`TikTokRoom.create`: empty `__clients` dict, no disconnect yet. -/
def freshRoom (uid : String) : TikTokRoom :=
  { unique_id := uid, members := [], disconnects := 0 }

/-- A Python-level error as it crosses the pool interface. -/
inductive PyErr where
  | typeError
  | userOffline
  | other (n : Nat)
deriving DecidableEq, Repr

/-- The keyword parameters accepted by `TikTokRoom.create`
(`cls` aside): `unique_id` and `session_id`. -/
def TikTokRoom.create_params : List String := ["unique_id", "session_id"]

/-- The keyword arguments that `TikTokRoomPool.join` passes to
`TikTokRoom.create`: `unique_id`, `session_id` and `authenticate_ws`. -/
def pool_join_create_kwargs : List String :=
  ["unique_id", "session_id", "authenticate_ws"]

/-- Whether the call from `TikTokRoomPool.join` to `TikTokRoom.create`
binds: every keyword argument must be an accepted parameter, else
Python raises a `TypeError` at the call. -/
def create_call_accepted : Bool :=
  pool_join_create_kwargs.all (fun k => TikTokRoom.create_params.contains k)

/-- The body of `TikTokRoom.create` once entered: check `is_live`
(raising `UserOfflineError` if not), then `start` the client (which
may fail), then build a fresh room.  Upstream liveness and connect
success are oracle parameters. -/
def TikTokRoom.create_body (is_live connectOk : Bool) (uid : String) :
    Except PyErr TikTokRoom :=
  if !is_live then .error .userOffline
  else if !connectOk then .error (.other 0)
  else .ok (freshRoom uid)

/-- Evaluating the expression `await TikTokRoom.create(unique_id=...,
session_id=..., authenticate_ws=...)` at the call site in
`TikTokRoomPool.join`: the keyword check happens before the body
runs. -/
def create_call (is_live connectOk : Bool) (uid : String) :
    Except PyErr TikTokRoom :=
  if create_call_accepted then TikTokRoom.create_body is_live connectOk uid
  else .error .typeError

/-- `TikTokRoom.join`: build the `RoomClient` wrapper (with a fresh
random id, modelled as the `freshId` argument), put it in the
`__clients` dict, and return it; the `join` control message is only a
pending coroutine at this point, so membership is visible before the
send resolves. -/
def TikTokRoom.join (room : TikTokRoom) (wsId freshId : Nat)
    (account : String) : TikTokRoom × RoomClient :=
  let c : RoomClient :=
    { id := freshId, ws := wsId, unique_id := room.unique_id, account := account }
  ({ room with members := room.members ++ [c] }, c)

/-- The rooms map of `TikTokRoomPool`. -/
def RoomsMap := List (String × TikTokRoom)

/-- `TikTokRoomPool.join`, parametric in the outcome of evaluating the
`TikTokRoom.create(...)` call expression: if no room exists for the
unique id, evaluate the creation step (propagating its error with the
map untouched) and store the new room; then look the room up and join
it.  Returns the new rooms map and the result. -/
def TikTokRoomPool.joinWith (createRes : Except PyErr TikTokRoom)
    (pool : List (String × TikTokRoom)) (uid : String) (wsId freshId : Nat)
    (account : String) :
    List (String × TikTokRoom) × Except PyErr RoomClient :=
  match alookup pool uid with
  | none =>
    match createRes with
    | .error e => (pool, .error e)
    | .ok room0 =>
      let pool1 := ainsert pool uid room0
      match alookup pool1 uid with
      | none => (pool1, .error (.other 99))
      | some room =>
        let j := TikTokRoom.join room wsId freshId account
        (aupdate pool1 uid j.1, .ok j.2)
  | some room =>
    let j := TikTokRoom.join room wsId freshId account
    (aupdate pool uid j.1, .ok j.2)

/-- `TikTokRoomPool.join` as written in pool.py, with the faithful
creation call (including its keyword arguments). -/
def TikTokRoomPool.join (is_live connectOk : Bool)
    (pool : List (String × TikTokRoom)) (uid : String) (wsId freshId : Nat)
    (account : String) :
    List (String × TikTokRoom) × Except PyErr RoomClient :=
  TikTokRoomPool.joinWith (create_call is_live connectOk uid)
    pool uid wsId freshId account

/-- Result of `TikTokRoomPool.clean_up_room`. -/
structure CleanRes where
  world : World
  pool : List (String × TikTokRoom)
  room : TikTokRoom
  sent : List (Nat × RoomMessage)

/-- `TikTokRoomPool.clean_up_room`: return if the room still has
clients; otherwise try `room.kill()` with a bare `except` that
swallows any failure, then `pop` the unique id from the map
unconditionally. -/
def TikTokRoomPool.clean_up_room (w : World)
    (pool : List (String × TikTokRoom)) (room : TikTokRoom) : CleanRes :=
  if room.clients > 0 then ⟨w, pool, room, []⟩
  else
    let k := TikTokRoom.kill w room
    ⟨k.world, aerase pool room.unique_id, k.room, k.sent⟩

/-- Result of `TikTokRoomPool.leave`. -/
structure PoolLeaveRes where
  world : World
  pool : List (String × TikTokRoom)
  sent : List (Nat × RoomMessage)
  err : Bool

/-- `TikTokRoomPool.leave`: look up the room by the client's unique id
(no-op when absent), call `room.leave(client)` (an exception from the
send propagates), then `clean_up_room`. -/
def TikTokRoomPool.leave (w : World) (pool : List (String × TikTokRoom))
    (c : RoomClient) : PoolLeaveRes :=
  match alookup pool c.unique_id with
  | none => ⟨w, pool, [], false⟩
  | some room =>
    let l := TikTokRoom.leave w room c false
    let pool1 := aupdate pool c.unique_id l.room
    if l.err then ⟨l.world, pool1, l.sent, true⟩
    else
      let cl := TikTokRoomPool.clean_up_room l.world pool1 l.room
      ⟨cl.world, cl.pool, l.sent ++ cl.sent, false⟩

/-- `ClientStore.add`: create the account entry if missing, then
append the client to its list. -/
def ClientStore.add (s : List (String × List RoomClient)) (a : String)
    (c : RoomClient) : List (String × List RoomClient) :=
  match alookup s a with
  | none => s ++ [(a, [c])]
  | some l => aupdate s a (l ++ [c])

/-- `ClientStore.remove`: return early when the account is absent;
otherwise Python `list.remove` drops the first occurrence of the
client, raising `ValueError` when it is not in the list; the account
entry is popped once its list becomes empty. -/
def ClientStore.remove (s : List (String × List RoomClient)) (a : String)
    (c : RoomClient) : Except Unit (List (String × List RoomClient)) :=
  match alookup s a with
  | none => .ok s
  | some l =>
    if c ∈ l then
      let l2 := l.erase c
      .ok (if l2 = [] then aerase s a else aupdate s a l2)
    else .error ()

/-- `ClientStore.get_account`: the list for the account, defaulting to
empty. -/
def ClientStore.get_account (s : List (String × List RoomClient))
    (a : String) : List RoomClient :=
  (alookup s a).getD []

/-- `ClientStore.count`: length of the account's list. -/
def ClientStore.count (s : List (String × List RoomClient)) (a : String) : Nat :=
  (ClientStore.get_account s a).length

/-- The composed `WebSocketManager` state: the pool's room map and the
`ClientStore` directory.  For membership accounting the control-plane
sends are irrelevant, so this level of the model elides the `World`
and treats channel sends as not raising (RuntimeErrors are swallowed
by `_send_message`; the non-RuntimeError send failure mode is studied
separately at room level). -/
structure GState where
  pool : List (String × TikTokRoom)
  store : List (String × List RoomClient)
deriving DecidableEq, Repr

/-- All subscribers currently attached to some room of a rooms map. -/
def allMembers (pool : List (String × TikTokRoom)) : List RoomClient :=
  (pool.map (fun p => p.2.members)).flatten

/-- The ids of all subscribers attached to some room. -/
def memberIds (s : GState) : List Nat :=
  (allMembers s.pool).map RoomClient.id

/-- `WebSocketManager.join`: `pool.join` first (an exception
propagates, leaving the store untouched), then `ClientStore.add`.  The
pool join is the faithful `TikTokRoomPool.join`, including its
`TikTokRoom.create(...)` call with the `authenticate_ws` keyword: for
an absent room that call raises `TypeError` whatever the upstream
liveness and connect oracles say. -/
def WebSocketManager.join (is_live connectOk : Bool) (s : GState)
    (account uid : String) (wsId freshId : Nat) : GState :=
  let pj := TikTokRoomPool.join is_live connectOk s.pool uid wsId freshId account
  match pj.2 with
  | .error _ => { s with pool := pj.1 }
  | .ok c => { pool := pj.1, store := ClientStore.add s.store account c }

/-- The membership effect of `TikTokRoomPool.leave`: find the room by
the client's unique id (no-op when absent), pop the client id from the
room's dict, then `clean_up_room` (which removes the room from the map
when it became empty; the kill inside only affects the removed
room). -/
def TikTokRoomPool.leaveM (pool : List (String × TikTokRoom))
    (c : RoomClient) : List (String × TikTokRoom) :=
  match alookup pool c.unique_id with
  | none => pool
  | some room =>
    let room1 := { room with members := room.members.filter (fun m => !(m.id == c.id)) }
    let pool1 := aupdate pool c.unique_id room1
    if room1.clients > 0 then pool1 else aerase pool1 room1.unique_id

/-- `WebSocketManager.leave`: `ClientStore.remove` first — its
`ValueError` on a missing list element propagates, skipping
`pool.leave` with no state change — then `pool.leave`. -/
def WebSocketManager.leaveM (s : GState) (account : String)
    (c : RoomClient) : GState :=
  match ClientStore.remove s.store account c with
  | .error _ => s
  | .ok store1 => { pool := TikTokRoomPool.leaveM s.pool c, store := store1 }

/-- The membership effect of the `end_handler` (and
`disconnect_handler`) wired in `register_events`: when the upstream
session ends, every client of the room is force-left — removed from
the room's dict — while the `ClientStore` directory is not touched.
Models the handler completing normally. -/
def endTerminalM (s : GState) (uid : String) : GState :=
  match alookup s.pool uid with
  | none => s
  | some room => { s with pool := aupdate s.pool uid { room with members := [] } }

/-- One gateway-level operation: a join (with arbitrary upstream
liveness and connect oracles, arbitrary account, stream id, socket
and random client id), a leave with an arbitrary account and client
value, or a broadcast, which does not change membership. -/
inductive GStep : GState → GState → Prop where
  | joinStep (s : GState) (is_live connectOk : Bool) (account uid : String)
      (wsId freshId : Nat) :
      GStep s (WebSocketManager.join is_live connectOk s account uid wsId freshId)
  | leaveStep (s : GState) (account : String) (c : RoomClient) :
      GStep s (WebSocketManager.leaveM s account c)
  | broadcastStep (s : GState) : GStep s s

/-- States reachable from the empty server by any sequence of gateway
joins, gateway leaves, broadcasts and upstream terminal events
(forced teardowns). -/
inductive ReachableT : GState → Prop where
  | init : ReachableT ⟨[], []⟩
  | step {s s2 : GState} : ReachableT s → GStep s s2 → ReachableT s2
  | terminal {s : GState} (uid : String) :
      ReachableT s → ReachableT (endTerminalM s uid)

/-- The directory-consistency property of the spec: for each account,
the `ClientStore` count equals the number of that account's
subscribers attached to some room. -/
def DirInv (s : GState) : Prop :=
  ∀ acct : String, ClientStore.count s.store acct =
    ((allMembers s.pool).filter (fun c => c.account == acct)).length

section AssocLemmas

variable {β : Type}

theorem alookup_aerase_self (s : List (String × β)) (k : String) :
    alookup (aerase s k) k = none := by
  induction s with
  | nil => rfl
  | cons p rest ih =>
    by_cases h : p.1 = k
    · simpa [aerase, h] using ih
    · simpa [aerase, alookup, h] using ih

theorem alookup_aerase_ne (s : List (String × β)) (k k2 : String)
    (h : k2 ≠ k) : alookup (aerase s k) k2 = alookup s k2 := by
  induction s with
  | nil => rfl
  | cons p rest ih =>
    by_cases hp : p.1 = k
    · rw [show aerase (p :: rest) k = aerase rest k from by simp [aerase, hp]]
      rw [ih]
      have : p.1 ≠ k2 := by rw [hp]; exact fun hk => h hk.symm
      simp [alookup, this]
    · rw [show aerase (p :: rest) k = p :: aerase rest k from by simp [aerase, hp]]
      by_cases hq : p.1 = k2
      · simp [alookup, hq]
      · simp [alookup, hq, ih]

theorem alookup_eq_none_iff (s : List (String × β)) (k : String) :
    alookup s k = none ↔ k ∉ s.map Prod.fst := by
  induction s with
  | nil => simp [alookup]
  | cons p rest ih =>
    by_cases hp : p.1 = k
    · simp [alookup, hp]
    · rw [show alookup (p :: rest) k = alookup rest k from by simp [alookup, hp]]
      rw [ih]
      constructor
      · intro hn hm
        rcases List.mem_cons.mp hm with hm | hm
        · exact hp hm.symm
        · exact hn hm
      · intro hn hm
        exact hn (List.mem_cons_of_mem _ hm)

theorem alookup_aupdate_ne (s : List (String × β)) (k k2 : String) (v : β)
    (h : k2 ≠ k) : alookup (aupdate s k v) k2 = alookup s k2 := by
  induction s with
  | nil => rfl
  | cons p rest ih =>
    by_cases hp : p.1 = k
    · have hne : p.1 ≠ k2 := by rw [hp]; exact fun hk => h hk.symm
      rw [show aupdate (p :: rest) k v = (p.1, v) :: aupdate rest k v from by
        simp [aupdate, hp]]
      simp [alookup, hne, ih]
    · rw [show aupdate (p :: rest) k v = p :: aupdate rest k v from by
        simp [aupdate, hp]]
      by_cases hq : p.1 = k2
      · simp [alookup, hq]
      · simp [alookup, hq, ih]

theorem alookup_aupdate_self (s : List (String × β)) (k : String) (v v0 : β)
    (h : alookup s k = some v0) : alookup (aupdate s k v) k = some v := by
  induction s with
  | nil => simp [alookup] at h
  | cons p rest ih =>
    by_cases hp : p.1 = k
    · simp [aupdate, alookup, hp]
    · simp only [alookup, if_neg hp] at h
      simp [aupdate, alookup, hp, ih h]

theorem aupdate_keys (s : List (String × β)) (k : String) (v : β) :
    (aupdate s k v).map Prod.fst = s.map Prod.fst := by
  induction s with
  | nil => rfl
  | cons p rest ih =>
    by_cases hp : p.1 = k <;> simp [aupdate, hp, ih]

theorem aupdate_of_not_mem (s : List (String × β)) (k : String) (v : β)
    (h : k ∉ s.map Prod.fst) : aupdate s k v = s := by
  induction s with
  | nil => rfl
  | cons p rest ih =>
    have hp : p.1 ≠ k := fun he => h (by simp [he])
    have hrest : k ∉ rest.map Prod.fst := fun hm => h (by simp [hm])
    simp [aupdate, hp, ih hrest]

theorem aupdate_lookup_same (s : List (String × β)) (k : String) (v : β)
    (hnd : (s.map Prod.fst).Nodup) (h : alookup s k = some v) :
    aupdate s k v = s := by
  induction s with
  | nil => rfl
  | cons p rest ih =>
    obtain ⟨a, b⟩ := p
    rw [List.map_cons, List.nodup_cons] at hnd
    by_cases hp : a = k
    · subst hp
      simp only [alookup, if_pos rfl] at h
      have hv : b = v := Option.some.inj h
      subst hv
      simp [aupdate, aupdate_of_not_mem rest a b hnd.1]
    · simp only [alookup] at h
      rw [if_neg hp] at h
      simp [aupdate, hp, ih hnd.2 h]

theorem alookup_append (s t : List (String × β)) (k : String) :
    alookup (s ++ t) k =
      match alookup s k with
      | some v => some v
      | none => alookup t k := by
  induction s with
  | nil => simp [alookup]
  | cons p rest ih =>
    by_cases hp : p.1 = k <;> simp [alookup, hp, ih]

theorem alookup_ainsert_self (s : List (String × β)) (k : String) (v : β)
    (h : alookup s k = none) : alookup (ainsert s k v) k = some v := by
  simp [ainsert, h, alookup_append, alookup]

theorem mem_of_alookup_eq_some {s : List (String × β)} {k : String} {v : β}
    (h : alookup s k = some v) : (k, v) ∈ s := by
  induction s with
  | nil => simp [alookup] at h
  | cons p rest ih =>
    by_cases hp : p.1 = k
    · simp only [alookup, if_pos hp] at h
      have : p = (k, v) := by
        cases p
        simp only at hp
        simp only [Option.some.injEq] at h
        simp [hp, h]
      rw [this]
      exact List.mem_cons_self _ _
    · simp only [alookup, if_neg hp] at h
      exact List.mem_cons_of_mem _ (ih h)

theorem alookup_of_mem_nodup {s : List (String × β)} {k : String} {v : β}
    (hnd : (s.map Prod.fst).Nodup) (h : (k, v) ∈ s) : alookup s k = some v := by
  induction s with
  | nil => simp at h
  | cons p rest ih =>
    rw [List.map_cons, List.nodup_cons] at hnd
    rcases List.mem_cons.mp h with h | h
    · simp [← h, alookup]
    · have hk : k ∈ rest.map Prod.fst := by
        have := List.mem_map_of_mem Prod.fst h
        simpa using this
      have hp : p.1 ≠ k := fun he => hnd.1 (he ▸ hk)
      simp [alookup, hp]
      exact ih hnd.2 h

end AssocLemmas

/-- C10: `ClientStore.remove` is asymmetric on absent entries — an
absent account id returns without raising and without change, while a
present account whose list lacks the given subscriber raises
(`list.remove` of a missing element). -/
theorem C10_clientstore_remove_asymmetric
    (s : List (String × List RoomClient)) (a : String) (c : RoomClient) :
    (alookup s a = none → ClientStore.remove s a c = .ok s) ∧
    (∀ l, alookup s a = some l → c ∉ l → ClientStore.remove s a c = .error ()) := by
  constructor
  · intro h
    simp [ClientStore.remove, h]
  · intro l hl hc
    simp [ClientStore.remove, hl, hc]

/-- Witness for C10 at a concrete store: account "b" is absent (no-op
result), account "a" is present but does not hold the client
(error). -/
theorem C10_clientstore_remove_asymmetric_witness :
    ClientStore.remove [("a", [⟨1, 1, "bob", "a"⟩])] "b" ⟨2, 2, "bob", "b"⟩ =
      .ok [("a", [⟨1, 1, "bob", "a"⟩])] ∧
    ClientStore.remove [("a", [⟨1, 1, "bob", "a"⟩])] "a" ⟨2, 2, "bob", "b"⟩ =
      .error () :=
  ⟨(C10_clientstore_remove_asymmetric [("a", [⟨1, 1, "bob", "a"⟩])] "b"
      ⟨2, 2, "bob", "b"⟩).1 (by decide),
   (C10_clientstore_remove_asymmetric [("a", [⟨1, 1, "bob", "a"⟩])] "a"
      ⟨2, 2, "bob", "b"⟩).2 [⟨1, 1, "bob", "a"⟩] (by decide) (by decide)⟩

/-- C7: when no room exists for the stream id and the creation step of
`TikTokRoomPool.join` fails, the error propagates to the caller and
the rooms map is returned exactly as it was — the stream id stays
absent and no other entry changes. -/
theorem C7_join_atomic_on_create_failure
    (createRes : Except PyErr TikTokRoom) (pool : List (String × TikTokRoom))
    (uid : String) (wsId freshId : Nat) (account : String) (e : PyErr)
    (habs : alookup pool uid = none) (hfail : createRes = .error e) :
    TikTokRoomPool.joinWith createRes pool uid wsId freshId account =
      (pool, .error e) := by
  simp [TikTokRoomPool.joinWith, habs, hfail]

/-- Witness for C7: a failing creation on an empty map propagates the
offline error and leaves the map empty. -/
theorem C7_join_atomic_on_create_failure_witness :
    TikTokRoomPool.joinWith (.error .userOffline) [] "bob" 1 1 "a" =
      ([], .error .userOffline) :=
  C7_join_atomic_on_create_failure (.error .userOffline) [] "bob" 1 1 "a"
    .userOffline (by decide) rfl

/-- C1 (code bug): for any stream id with no existing room,
`TikTokRoomPool.join` never creates a room or returns a subscriber —
even with the upstream live and connecting successfully — because it
passes the keyword argument `authenticate_ws` to `TikTokRoom.create`,
whose signature accepts only `unique_id` and `session_id`, so the call
raises `TypeError` before the registry is touched. -/
theorem C1_join_new_room_always_typeerror
    (is_live connectOk : Bool) (pool : List (String × TikTokRoom))
    (uid : String) (wsId freshId : Nat) (account : String)
    (habs : alookup pool uid = none) :
    TikTokRoomPool.join is_live connectOk pool uid wsId freshId account =
      (pool, .error .typeError) := by
  have hacc : create_call_accepted = false := by decide
  simp [TikTokRoomPool.join, TikTokRoomPool.joinWith, habs, create_call, hacc]

/-- Witness for C1 at the failing input: a join for stream "bob" on an
empty registry, with the upstream live, raises `TypeError` and
changes nothing. -/
theorem C1_join_new_room_always_typeerror_witness :
    TikTokRoomPool.join true true [] "bob" 1 1 "a" = ([], .error .typeError) :=
  C1_join_new_room_always_typeerror true true [] "bob" 1 1 "a" (by decide)

/-- C6: `clean_up_room` on a room with members changes nothing at all;
on an empty room it removes the room entry from the registry map —
whatever `room.kill()` does, including raising — while every other
entry is untouched. -/
theorem C6_cleanup_removes_empty_rooms (w : World)
    (pool : List (String × TikTokRoom)) (room : TikTokRoom) :
    (0 < room.clients → TikTokRoomPool.clean_up_room w pool room =
      ⟨w, pool, room, []⟩) ∧
    (room.clients = 0 →
      alookup (TikTokRoomPool.clean_up_room w pool room).pool room.unique_id =
        none ∧
      ∀ uid, uid ≠ room.unique_id →
        alookup (TikTokRoomPool.clean_up_room w pool room).pool uid =
          alookup pool uid) := by
  constructor
  · intro h
    simp [TikTokRoomPool.clean_up_room, h]
  · intro h
    have hng : ¬ room.clients > 0 := by omega
    refine ⟨?_, ?_⟩
    · simp [TikTokRoomPool.clean_up_room, hng, alookup_aerase_self]
    · intro uid huid
      simp [TikTokRoomPool.clean_up_room, hng, alookup_aerase_ne _ _ _ huid]

/-- Witness for C6: an empty room for "bob" is removed from the map
even though the disconnect raises, and an entry for "alice" survives;
a room with one member is left alone. -/
theorem C6_cleanup_removes_empty_rooms_witness :
    alookup (TikTokRoomPool.clean_up_room
        ⟨fun _ => false, fun _ => .ok, true⟩
        [("bob", freshRoom "bob"), ("alice", ⟨"alice", [⟨1, 1, "alice", "a"⟩], 0⟩)]
        (freshRoom "bob")).pool "bob" = none ∧
    alookup (TikTokRoomPool.clean_up_room
        ⟨fun _ => false, fun _ => .ok, true⟩
        [("bob", freshRoom "bob"), ("alice", ⟨"alice", [⟨1, 1, "alice", "a"⟩], 0⟩)]
        (freshRoom "bob")).pool "alice" = some ⟨"alice", [⟨1, 1, "alice", "a"⟩], 0⟩ ∧
    TikTokRoomPool.clean_up_room ⟨fun _ => false, fun _ => .ok, true⟩ []
        ⟨"alice", [⟨1, 1, "alice", "a"⟩], 0⟩ =
      ⟨⟨fun _ => false, fun _ => .ok, true⟩, [], ⟨"alice", [⟨1, 1, "alice", "a"⟩], 0⟩, []⟩ := by
  refine ⟨?_, ?_, ?_⟩
  · exact ((C6_cleanup_removes_empty_rooms
      ⟨fun _ => false, fun _ => .ok, true⟩
      [("bob", freshRoom "bob"), ("alice", ⟨"alice", [⟨1, 1, "alice", "a"⟩], 0⟩)]
      (freshRoom "bob")).2 (by decide)).1
  · have := ((C6_cleanup_removes_empty_rooms
      ⟨fun _ => false, fun _ => .ok, true⟩
      [("bob", freshRoom "bob"), ("alice", ⟨"alice", [⟨1, 1, "alice", "a"⟩], 0⟩)]
      (freshRoom "bob")).2 (by decide)).2 "alice" (by decide)
    rw [this]
    decide
  · exact (C6_cleanup_removes_empty_rooms _ _ _).1 (by decide)

theorem send_message_sent_eq (w : World) (ws : Nat) (m : RoomMessage)
    (p : Nat × RoomMessage) (hp : p ∈ (TikTokRoom.send_message w ws m).sent) :
    p = (ws, m) := by
  unfold TikTokRoom.send_message at hp
  by_cases h : w.closed ws
  · simp [h] at hp
  · simp only [h] at hp
    cases hw : w.outcome ws <;> simp [hw] at hp
    exact hp

theorem send_message_err_iff (w : World) (ws : Nat) (m : RoomMessage) :
    (TikTokRoom.send_message w ws m).err = true ↔
      w.closed ws = false ∧ w.outcome ws = .exc := by
  unfold TikTokRoom.send_message
  by_cases h : w.closed ws
  · simp [h]
  · cases hw : w.outcome ws <;> simp [h, hw]

theorem send_message_outcome (w : World) (ws : Nat) (m : RoomMessage) :
    (TikTokRoom.send_message w ws m).world.outcome = w.outcome := by
  unfold TikTokRoom.send_message
  by_cases h : w.closed ws
  · simp [h]
  · cases hw : w.outcome ws <;> simp [h, hw]

theorem send_message_disconnectRaises (w : World) (ws : Nat) (m : RoomMessage) :
    (TikTokRoom.send_message w ws m).world.disconnectRaises =
      w.disconnectRaises := by
  unfold TikTokRoom.send_message
  by_cases h : w.closed ws
  · simp [h]
  · cases hw : w.outcome ws <;> simp [h, hw]

theorem send_message_closed_of_ok (w : World) (ws : Nat) (m : RoomMessage)
    (n : Nat) (hn : w.outcome n = .ok) :
    (TikTokRoom.send_message w ws m).world.closed n = w.closed n := by
  unfold TikTokRoom.send_message
  by_cases h : w.closed ws
  · simp [h]
  · cases hw : w.outcome ws <;> simp [h, hw]
    intro he
    rw [he] at hn
    rw [hn] at hw
    cases hw

theorem send_message_ok_delivers (w : World) (ws : Nat) (m : RoomMessage)
    (hcl : w.closed ws = false) (hok : w.outcome ws = .ok) :
    (TikTokRoom.send_message w ws m).sent = [(ws, m)] := by
  unfold TikTokRoom.send_message
  simp [hcl, hok]

theorem forwardLoop_sent_type (uid : String) (e : BaseEvent) :
    ∀ (l : List RoomClient) (w : World) (p : Nat × RoomMessage),
      p ∈ (forwardLoop w uid e l).sent → p.2.type = "tiktok_event" := by
  intro l
  induction l with
  | nil =>
    intro w p hp
    simp [forwardLoop] at hp
  | cons c rest ih =>
    intro w p hp
    rw [forwardLoop] at hp
    by_cases herr :
        (TikTokRoom.send_message w c.ws (TikTokEventMsg uid e.name (eventData e))).err
    · simp only [herr, if_true] at hp
      have := send_message_sent_eq _ _ _ _ hp
      rw [this]
      rfl
    · simp only [herr, if_false, Bool.false_eq_true] at hp
      rcases List.mem_append.mp hp with hp | hp
      · have := send_message_sent_eq _ _ _ _ hp
        rw [this]
        rfl
      · exact ih _ _ hp

/-- C2 counterexample: a concrete upstream "like" event forwarded to a
single open subscriber is delivered as an envelope whose `type` field
is `"tiktok_event"`, not `"stream_event"` (nor any of the three
admitted tags). -/
theorem C2_counterexample_type_is_tiktok_event :
    (event_forwarder ⟨fun _ => false, fun _ => .ok, false⟩
        ⟨"bob", [⟨1, 5, "bob", "a"⟩], 0⟩ ⟨"like", "d1", true⟩).sent =
      [(5, ⟨"tiktok_event", "bob", "d1", "like"⟩)] ∧
    ("tiktok_event" : String) ≠ "stream_event" := by
  exact ⟨rfl, by decide⟩

/-- C2 (amended): every envelope delivered by the fan-out handler for
an upstream event has `type = "tiktok_event"` — the `TikTokEvent`
model's literal — rather than the `"stream_event"` stated by the
spec. -/
theorem C2_forwarded_type_tiktok_event (w : World) (room : TikTokRoom)
    (e : BaseEvent) (p : Nat × RoomMessage)
    (hp : p ∈ (event_forwarder w room e).sent) :
    p.2.type = "tiktok_event" :=
  forwardLoop_sent_type room.unique_id e room.members w p hp

/-- Witness for C2 (amended) at a concrete delivered envelope. -/
theorem C2_forwarded_type_tiktok_event_witness :
    ((5 : Nat), (⟨"tiktok_event", "bob", "d1", "like"⟩ : RoomMessage)).2.type =
      "tiktok_event" :=
  C2_forwarded_type_tiktok_event ⟨fun _ => false, fun _ => .ok, false⟩
    ⟨"bob", [⟨1, 5, "bob", "a"⟩], 0⟩ ⟨"like", "d1", true⟩
    (5, ⟨"tiktok_event", "bob", "d1", "like"⟩) (by simp [event_forwarder,
      forwardLoop, TikTokRoom.send_message, TikTokEventMsg, eventData])

theorem forwardLoop_all_ok (uid : String) (e : BaseEvent) :
    ∀ (l : List RoomClient) (w : World),
      (∀ c ∈ l, w.closed c.ws = false ∧ w.outcome c.ws = .ok) →
      forwardLoop w uid e l =
        ⟨w, l.map (fun c => (c.ws, TikTokEventMsg uid e.name (eventData e))), false⟩ := by
  intro l
  induction l with
  | nil =>
    intro w _
    rfl
  | cons c rest ih =>
    intro w h
    have hc := h c (List.mem_cons_self c rest)
    have hsend : TikTokRoom.send_message w c.ws
        (TikTokEventMsg uid e.name (eventData e)) =
        ⟨w, [(c.ws, TikTokEventMsg uid e.name (eventData e))], false⟩ := by
      unfold TikTokRoom.send_message
      simp [hc.1, hc.2]
    rw [forwardLoop, hsend]
    simp only [Bool.false_eq_true, if_false]
    rw [ih w (fun c2 hc2 => h c2 (List.mem_cons_of_mem c hc2))]
    simp

/-- C9: with every subscriber's channel open and every send
succeeding, the fan-out of one upstream event delivers exactly the
snapshot list, in order — one identical envelope per subscriber
(so k envelopes for k subscribers, none for k = 0), no exception, and
nothing to any socket outside the snapshot. -/
theorem C9_broadcast_exactly_snapshot (w : World) (room : TikTokRoom)
    (e : BaseEvent)
    (h : ∀ c ∈ room.members, w.closed c.ws = false ∧ w.outcome c.ws = .ok) :
    (event_forwarder w room e).sent =
      room.members.map
        (fun c => (c.ws, TikTokEventMsg room.unique_id e.name (eventData e))) ∧
    (event_forwarder w room e).err = false ∧
    (event_forwarder w room e).sent.length = room.members.length ∧
    (∀ wsN, wsN ∉ room.members.map RoomClient.ws →
      ∀ p ∈ (event_forwarder w room e).sent, p.1 ≠ wsN) := by
  have hloop := forwardLoop_all_ok room.unique_id e room.members w h
  unfold event_forwarder
  rw [hloop]
  refine ⟨rfl, rfl, by simp, ?_⟩
  intro wsN hws p hp hcontra
  rcases List.mem_map.mp hp with ⟨c, hc, hpc⟩
  apply hws
  rw [← hcontra, ← hpc]
  exact List.mem_map_of_mem RoomClient.ws hc

/-- Witness for C9: a two-subscriber room with open sockets receives
exactly two identical envelopes, in snapshot order. -/
theorem C9_broadcast_exactly_snapshot_witness :
    (event_forwarder ⟨fun _ => false, fun _ => .ok, false⟩
        ⟨"bob", [⟨1, 5, "bob", "a"⟩, ⟨2, 6, "bob", "b"⟩], 0⟩
        ⟨"like", "d1", true⟩).sent =
      [(5, ⟨"tiktok_event", "bob", "d1", "like"⟩),
       (6, ⟨"tiktok_event", "bob", "d1", "like"⟩)] :=
  (C9_broadcast_exactly_snapshot ⟨fun _ => false, fun _ => .ok, false⟩
    ⟨"bob", [⟨1, 5, "bob", "a"⟩, ⟨2, 6, "bob", "b"⟩], 0⟩
    ⟨"like", "d1", true⟩ (by decide)).1

/-- C3 counterexample: a non-RuntimeError exception from the first
subscriber's channel send aborts the broadcast — nothing at all is
delivered, in particular not to the second subscriber whose socket was
open and healthy — and the exception propagates out of the fan-out
handler. -/
theorem C3_counterexample_exc_aborts_broadcast :
    (event_forwarder ⟨fun _ => false, fun n => if n = 5 then .exc else .ok, false⟩
        ⟨"bob", [⟨1, 5, "bob", "a"⟩, ⟨2, 6, "bob", "b"⟩], 0⟩
        ⟨"like", "d1", true⟩).err = true ∧
    (event_forwarder ⟨fun _ => false, fun n => if n = 5 then .exc else .ok, false⟩
        ⟨"bob", [⟨1, 5, "bob", "a"⟩, ⟨2, 6, "bob", "b"⟩], 0⟩
        ⟨"like", "d1", true⟩).sent = [] := by
  exact ⟨rfl, rfl⟩

theorem forwardLoop_no_exc (uid : String) (e : BaseEvent) :
    ∀ (l : List RoomClient) (w : World),
      (∀ c ∈ l, w.outcome c.ws ≠ .exc) →
      (forwardLoop w uid e l).err = false ∧
      (forwardLoop w uid e l).world.outcome = w.outcome ∧
      (∀ n, w.outcome n = .ok →
        (forwardLoop w uid e l).world.closed n = w.closed n) ∧
      (∀ c ∈ l, w.closed c.ws = false → w.outcome c.ws = .ok →
        (c.ws, TikTokEventMsg uid e.name (eventData e)) ∈
          (forwardLoop w uid e l).sent) := by
  intro l
  induction l with
  | nil =>
    intro w _
    exact ⟨rfl, rfl, fun n _ => rfl, fun c hc => absurd hc (List.not_mem_nil c)⟩
  | cons c rest ih =>
    intro w h
    have hc := h c (List.mem_cons_self c rest)
    have herr : (TikTokRoom.send_message w c.ws
        (TikTokEventMsg uid e.name (eventData e))).err = false := by
      rcases Bool.eq_false_or_eq_true (TikTokRoom.send_message w c.ws
        (TikTokEventMsg uid e.name (eventData e))).err with ht | hf
      · exact absurd ((send_message_err_iff w c.ws _).mp ht).2 hc
      · exact hf
    have houtc := send_message_outcome w c.ws (TikTokEventMsg uid e.name (eventData e))
    have hrest : ∀ c2 ∈ rest, (TikTokRoom.send_message w c.ws
        (TikTokEventMsg uid e.name (eventData e))).world.outcome c2.ws ≠ .exc := by
      intro c2 hc2
      rw [houtc]
      exact h c2 (List.mem_cons_of_mem c hc2)
    have hih := ih (TikTokRoom.send_message w c.ws
      (TikTokEventMsg uid e.name (eventData e))).world hrest
    rw [forwardLoop]
    simp only [herr, Bool.false_eq_true, if_false]
    refine ⟨hih.1, ?_, ?_, ?_⟩
    · rw [hih.2.1, houtc]
    · intro n hn
      rw [hih.2.2.1 n (by rw [houtc]; exact hn)]
      exact send_message_closed_of_ok w c.ws _ n hn
    · intro c2 hc2 hcl hok
      rcases List.mem_cons.mp hc2 with hc2 | hc2
      · subst hc2
        apply List.mem_append_left
        rw [send_message_ok_delivers w c2.ws _ hcl hok]
        exact List.mem_singleton_self _
      · apply List.mem_append_right
        have hcl2 : (TikTokRoom.send_message w c.ws
            (TikTokEventMsg uid e.name (eventData e))).world.closed c2.ws = false := by
          rw [send_message_closed_of_ok w c.ws _ c2.ws hok]
          exact hcl
        exact hih.2.2.2 c2 hc2 hcl2 (by rw [houtc]; exact hok)

/-- C3 (amended): per-send failures of type RuntimeError (the only
kind `_send_message` catches) never abort the broadcast or propagate:
if no subscriber's send raises a non-RuntimeError, the fan-out
completes without exception and still delivers to every subscriber
whose socket is open and whose send succeeds.  A non-RuntimeError send
failure, by contrast, propagates and skips the rest of the snapshot
(see the counterexample). -/
theorem C3_runtimeerror_isolated (w : World) (room : TikTokRoom) (e : BaseEvent)
    (h : ∀ c ∈ room.members, w.outcome c.ws ≠ .exc) :
    (event_forwarder w room e).err = false ∧
    ∀ c ∈ room.members, w.closed c.ws = false → w.outcome c.ws = .ok →
      (c.ws, TikTokEventMsg room.unique_id e.name (eventData e)) ∈
        (event_forwarder w room e).sent := by
  have hl := forwardLoop_no_exc room.unique_id e room.members w h
  exact ⟨hl.1, hl.2.2.2⟩

/-- Witness for C3 (amended): the first subscriber's send fails with a
RuntimeError, yet no exception propagates and the second subscriber
still receives the envelope. -/
theorem C3_runtimeerror_isolated_witness :
    (event_forwarder ⟨fun _ => false, fun n => if n = 5 then .rtOther else .ok, false⟩
        ⟨"bob", [⟨1, 5, "bob", "a"⟩, ⟨2, 6, "bob", "b"⟩], 0⟩
        ⟨"like", "d1", true⟩).err = false ∧
    ((6 : Nat), TikTokEventMsg "bob" "like" "d1") ∈
      (event_forwarder ⟨fun _ => false, fun n => if n = 5 then .rtOther else .ok, false⟩
        ⟨"bob", [⟨1, 5, "bob", "a"⟩, ⟨2, 6, "bob", "b"⟩], 0⟩
        ⟨"like", "d1", true⟩).sent := by
  have := C3_runtimeerror_isolated
    ⟨fun _ => false, fun n => if n = 5 then .rtOther else .ok, false⟩
    ⟨"bob", [⟨1, 5, "bob", "a"⟩, ⟨2, 6, "bob", "b"⟩], 0⟩
    ⟨"like", "d1", true⟩ (by decide)
  exact ⟨this.1, this.2 ⟨2, 6, "bob", "b"⟩ (by decide) (by decide) (by decide)⟩

theorem leave_no_err_room (w : World) (room : TikTokRoom) (c : RoomClient)
    (endFlag : Bool) (h : (TikTokRoom.leave w room c endFlag).err = false) :
    (TikTokRoom.leave w room c endFlag).room =
      { room with members := room.members.filter (fun m => !(m.id == c.id)) } := by
  unfold TikTokRoom.leave at h ⊢
  by_cases hs : (TikTokRoom.send_message w c.ws
      (ControlEventMsg room.unique_id (if endFlag then "end" else "leave"))).err
  · simp [hs] at h
  · simp [hs]

theorem leave_room_disconnects (w : World) (room : TikTokRoom) (c : RoomClient)
    (endFlag : Bool) :
    (TikTokRoom.leave w room c endFlag).room.disconnects = room.disconnects := by
  unfold TikTokRoom.leave
  by_cases hs : (TikTokRoom.send_message w c.ws
      (ControlEventMsg room.unique_id (if endFlag then "end" else "leave"))).err
  · simp [hs]
  · simp [hs]

theorem leave_world_disconnectRaises (w : World) (room : TikTokRoom)
    (c : RoomClient) (endFlag : Bool) :
    (TikTokRoom.leave w room c endFlag).world.disconnectRaises =
      w.disconnectRaises := by
  unfold TikTokRoom.leave
  by_cases hs : (TikTokRoom.send_message w c.ws
      (ControlEventMsg room.unique_id (if endFlag then "end" else "leave"))).err
  · simp [hs, send_message_disconnectRaises]
  · simp [hs, send_message_disconnectRaises]

theorem killLoop_room_disconnects :
    ∀ (l : List RoomClient) (w : World) (room : TikTokRoom),
      (killLoop w room l).room.disconnects = room.disconnects := by
  intro l
  induction l with
  | nil =>
    intro w room
    rfl
  | cons c rest ih =>
    intro w room
    rw [killLoop]
    by_cases herr : (TikTokRoom.leave w room c true).err
    · rw [if_pos herr]
      exact leave_room_disconnects w room c true
    · rw [if_neg herr]
      simp only
      rw [ih, leave_room_disconnects]

theorem killLoop_world_disconnectRaises :
    ∀ (l : List RoomClient) (w : World) (room : TikTokRoom),
      (killLoop w room l).world.disconnectRaises = w.disconnectRaises := by
  intro l
  induction l with
  | nil =>
    intro w room
    rfl
  | cons c rest ih =>
    intro w room
    rw [killLoop]
    by_cases herr : (TikTokRoom.leave w room c true).err
    · rw [if_pos herr]
      exact leave_world_disconnectRaises w room c true
    · rw [if_neg herr]
      simp only
      rw [ih, leave_world_disconnectRaises]

theorem killLoop_no_err_empty :
    ∀ (l : List RoomClient) (w : World) (room : TikTokRoom),
      (∀ m ∈ room.members, ∃ c ∈ l, m.id = c.id) →
      (killLoop w room l).err = false →
      (killLoop w room l).room.members = [] := by
  intro l
  induction l with
  | nil =>
    intro w room hcov _
    rw [show (killLoop w room []).room = room from rfl]
    rw [List.eq_nil_iff_forall_not_mem]
    intro m hm
    rcases hcov m hm with ⟨c, hc, _⟩
    exact absurd hc (List.not_mem_nil c)
  | cons c rest ih =>
    intro w room hcov herr
    rw [killLoop] at herr ⊢
    by_cases herr1 : (TikTokRoom.leave w room c true).err
    · rw [if_pos herr1] at herr
      rw [herr1] at herr
      cases herr
    · rw [if_neg herr1] at herr ⊢
      simp only at herr ⊢
      apply ih
      · intro m hm
        have hroom := leave_no_err_room w room c true
          (Bool.eq_false_iff.mpr herr1)
        rw [hroom] at hm
        simp only [List.mem_filter] at hm
        rcases hcov m hm.1 with ⟨c2, hc2, hid⟩
        rcases List.mem_cons.mp hc2 with hc2 | hc2
        · exfalso
          have : (m.id == c.id) = false := by
            simpa using hm.2
          rw [hc2] at hid
          simp [hid] at this
        · exact ⟨c2, hc2, hid⟩
      · exact herr

theorem kill_no_err_parts (w : World) (r : TikTokRoom)
    (h : (TikTokRoom.kill w r).err = false) :
    (TikTokRoom.kill w r).room.members = [] ∧
    (TikTokRoom.kill w r).room.disconnects = r.disconnects + 1 ∧
    (TikTokRoom.kill w r).world.disconnectRaises = false := by
  unfold TikTokRoom.kill at h ⊢
  by_cases hl : (killLoop w r r.members).err
  · rw [if_pos hl] at h
    rw [hl] at h
    cases h
  · rw [if_neg hl] at h ⊢
    simp only at h ⊢
    refine ⟨?_, ?_, ?_⟩
    · exact killLoop_no_err_empty r.members w r (fun m hm => ⟨m, hm, rfl⟩)
        (Bool.eq_false_iff.mpr hl)
    · rw [killLoop_room_disconnects]
    · rw [killLoop_world_disconnectRaises] at h
      rw [killLoop_world_disconnectRaises]
      exact h

theorem kill_empty_members (w2 : World) (r2 : TikTokRoom)
    (hm : r2.members = []) (hdr : w2.disconnectRaises = false) :
    TikTokRoom.kill w2 r2 =
      ⟨w2, { r2 with disconnects := r2.disconnects + 1 }, [], false⟩ := by
  unfold TikTokRoom.kill
  rw [hm]
  simp [killLoop, hdr, hm]

/-- C4 counterexample: on a room with one subscriber (benign channels,
disconnect succeeding), the first `kill` invokes the upstream
disconnect once, and a second `kill` on the already-killed room
invokes it again — two invocations for one room instance, refuting
"disconnect is invoked exactly once per room instance". -/
theorem C4_counterexample_second_kill_disconnects_again :
    (TikTokRoom.kill ⟨fun _ => false, fun _ => .ok, false⟩
        ⟨"bob", [⟨1, 5, "bob", "a"⟩], 0⟩).room.disconnects = 1 ∧
    (TikTokRoom.kill
        (TikTokRoom.kill ⟨fun _ => false, fun _ => .ok, false⟩
          ⟨"bob", [⟨1, 5, "bob", "a"⟩], 0⟩).world
        (TikTokRoom.kill ⟨fun _ => false, fun _ => .ok, false⟩
          ⟨"bob", [⟨1, 5, "bob", "a"⟩], 0⟩).room).room.disconnects = 2 := by
  exact ⟨rfl, rfl⟩

/-- C4 (amended): `kill` on an already-killed room (the first kill
completed without exception) sends no control envelopes and raises
nothing, but it is not a no-op: it invokes the upstream session's
disconnect again, so disconnect is invoked once per completed kill
call rather than exactly once per room instance. -/
theorem C4_second_kill_silent_but_disconnects (w : World) (r : TikTokRoom)
    (h : (TikTokRoom.kill w r).err = false) :
    (TikTokRoom.kill (TikTokRoom.kill w r).world (TikTokRoom.kill w r).room).sent
      = [] ∧
    (TikTokRoom.kill (TikTokRoom.kill w r).world (TikTokRoom.kill w r).room).err
      = false ∧
    (TikTokRoom.kill (TikTokRoom.kill w r).world
        (TikTokRoom.kill w r).room).room.disconnects = r.disconnects + 2 := by
  obtain ⟨hmem, hdis, hdr⟩ := kill_no_err_parts w r h
  rw [kill_empty_members _ _ hmem hdr]
  refine ⟨rfl, rfl, ?_⟩
  simp [hdis]

/-- Witness for C4 (amended) on a concrete one-subscriber room. -/
theorem C4_second_kill_silent_but_disconnects_witness :
    (TikTokRoom.kill
        (TikTokRoom.kill ⟨fun _ => false, fun _ => .ok, false⟩
          ⟨"bob", [⟨1, 5, "bob", "a"⟩], 0⟩).world
        (TikTokRoom.kill ⟨fun _ => false, fun _ => .ok, false⟩
          ⟨"bob", [⟨1, 5, "bob", "a"⟩], 0⟩).room).sent = [] ∧
    (TikTokRoom.kill
        (TikTokRoom.kill ⟨fun _ => false, fun _ => .ok, false⟩
          ⟨"bob", [⟨1, 5, "bob", "a"⟩], 0⟩).world
        (TikTokRoom.kill ⟨fun _ => false, fun _ => .ok, false⟩
          ⟨"bob", [⟨1, 5, "bob", "a"⟩], 0⟩).room).room.disconnects = 0 + 2 :=
  ⟨(C4_second_kill_silent_but_disconnects ⟨fun _ => false, fun _ => .ok, false⟩
      ⟨"bob", [⟨1, 5, "bob", "a"⟩], 0⟩ rfl).1,
   (C4_second_kill_silent_but_disconnects ⟨fun _ => false, fun _ => .ok, false⟩
      ⟨"bob", [⟨1, 5, "bob", "a"⟩], 0⟩ rfl).2.2⟩

theorem leave_sent (w : World) (room : TikTokRoom) (c : RoomClient)
    (endFlag : Bool) :
    (TikTokRoom.leave w room c endFlag).sent =
      (TikTokRoom.send_message w c.ws
        (ControlEventMsg room.unique_id (if endFlag then "end" else "leave"))).sent := by
  unfold TikTokRoom.leave
  by_cases hs : (TikTokRoom.send_message w c.ws
      (ControlEventMsg room.unique_id (if endFlag then "end" else "leave"))).err
  · simp [hs]
  · simp [hs]

theorem leave_err (w : World) (room : TikTokRoom) (c : RoomClient)
    (endFlag : Bool) :
    (TikTokRoom.leave w room c endFlag).err =
      (TikTokRoom.send_message w c.ws
        (ControlEventMsg room.unique_id (if endFlag then "end" else "leave"))).err := by
  unfold TikTokRoom.leave
  by_cases hs : (TikTokRoom.send_message w c.ws
      (ControlEventMsg room.unique_id (if endFlag then "end" else "leave"))).err
  · simp [hs]
  · simp [hs]

/-- C8 counterexample: the room for "bob" exists with one member, and
the departing subscriber (id 2, socket 22, open channel) is in no
room's subscriber set — yet `pool.leave` sends it a `"leave"` control
envelope, because `room.leave` sends before checking membership.  This
refutes "sends nothing on the subscriber's channel". -/
theorem C8_counterexample_nonmember_leave_sends :
    (⟨2, 22, "bob", "b"⟩ : RoomClient) ∉
      (⟨"bob", [⟨1, 11, "bob", "a"⟩], 0⟩ : TikTokRoom).members ∧
    (TikTokRoomPool.leave ⟨fun _ => false, fun _ => .ok, false⟩
        [("bob", ⟨"bob", [⟨1, 11, "bob", "a"⟩], 0⟩)]
        ⟨2, 22, "bob", "b"⟩).sent = [(22, ControlEventMsg "bob" "leave")] := by
  exact ⟨by decide, rfl⟩

theorem clean_up_room_pos (w : World) (pool : List (String × TikTokRoom))
    (room : TikTokRoom) (h : 0 < room.clients) :
    TikTokRoomPool.clean_up_room w pool room = ⟨w, pool, room, []⟩ := by
  simp [TikTokRoomPool.clean_up_room, h]

theorem kill_sent_empty (w : World) (room : TikTokRoom)
    (hm : room.members = []) : (TikTokRoom.kill w room).sent = [] := by
  unfold TikTokRoom.kill
  rw [hm]
  simp [killLoop]

theorem clean_up_room_empty (w : World) (pool : List (String × TikTokRoom))
    (room : TikTokRoom) (h : room.clients = 0) :
    (TikTokRoomPool.clean_up_room w pool room).pool =
      aerase pool room.unique_id ∧
    (TikTokRoomPool.clean_up_room w pool room).sent =
      (TikTokRoom.kill w room).sent := by
  have hng : ¬ room.clients > 0 := by omega
  constructor <;> simp [TikTokRoomPool.clean_up_room, hng]

/-- C8 (amended): `pool.leave` on a subscriber absent from every room
does not raise (assuming its channel send raises no non-RuntimeError).
With no room for the stream id it is a complete no-op.  When a room
exists for the subscriber's stream id, it is not send-free: a
`"leave"` control envelope may be sent on the subscriber's own (open)
channel — the only message ever sent — and cleanup then runs: if the
room still has members, the registry and the room are unchanged; if
the room was already empty, the room is killed and its entry removed
from the registry map, every other entry untouched. -/
theorem C8_leave_nonmember_noop (w : World)
    (pool : List (String × TikTokRoom)) (c : RoomClient) :
    (alookup pool c.unique_id = none →
      TikTokRoomPool.leave w pool c = ⟨w, pool, [], false⟩) ∧
    (∀ room, alookup pool c.unique_id = some room →
      (pool.map Prod.fst).Nodup →
      c.id ∉ room.members.map RoomClient.id →
      w.outcome c.ws ≠ .exc →
      (TikTokRoomPool.leave w pool c).err = false ∧
      (∀ p ∈ (TikTokRoomPool.leave w pool c).sent,
        p = (c.ws, ControlEventMsg room.unique_id "leave")) ∧
      (0 < room.clients → (TikTokRoomPool.leave w pool c).pool = pool) ∧
      (room.clients = 0 →
        alookup (TikTokRoomPool.leave w pool c).pool room.unique_id = none ∧
        ∀ uid2, uid2 ≠ room.unique_id →
          alookup (TikTokRoomPool.leave w pool c).pool uid2 =
            alookup pool uid2)) := by
  constructor
  · intro habs
    simp [TikTokRoomPool.leave, habs]
  · intro room hsome hnd hid hexc
    have hlerr : (TikTokRoom.leave w room c false).err = false := by
      rw [leave_err]
      rcases Bool.eq_false_or_eq_true (TikTokRoom.send_message w c.ws
          (ControlEventMsg room.unique_id "leave")).err with ht | hf
      · exact absurd ((send_message_err_iff w c.ws _).mp
          (by simpa using ht)).2 hexc
      · simpa using hf
    have hfilter : room.members.filter (fun m => !(m.id == c.id)) = room.members := by
      apply List.filter_eq_self.mpr
      intro m hm
      have : m.id ≠ c.id := fun he => hid (he ▸ List.mem_map_of_mem RoomClient.id hm)
      simp [this]
    have hroom : (TikTokRoom.leave w room c false).room = room := by
      rw [leave_no_err_room w room c false hlerr, hfilter]
    have hupd : aupdate pool c.unique_id room = pool :=
      aupdate_lookup_same pool c.unique_id room hnd hsome
    have hL : TikTokRoomPool.leave w pool c =
        ⟨(TikTokRoomPool.clean_up_room
            (TikTokRoom.leave w room c false).world pool room).world,
         (TikTokRoomPool.clean_up_room
            (TikTokRoom.leave w room c false).world pool room).pool,
         (TikTokRoom.leave w room c false).sent ++
           (TikTokRoomPool.clean_up_room
             (TikTokRoom.leave w room c false).world pool room).sent,
         false⟩ := by
      unfold TikTokRoomPool.leave
      rw [hsome]
      simp only [hlerr, Bool.false_eq_true, if_false, hroom, hupd]
    have hclsent : (TikTokRoomPool.clean_up_room
        (TikTokRoom.leave w room c false).world pool room).sent = [] := by
      rcases Nat.eq_zero_or_pos room.clients with hz | hpos
      · rw [(clean_up_room_empty _ pool room hz).2]
        apply kill_sent_empty
        rw [TikTokRoom.clients] at hz
        exact List.length_eq_zero.mp hz
      · rw [clean_up_room_pos _ pool room hpos]
    refine ⟨?_, ?_, ?_, ?_⟩
    · rw [hL]
    · intro p hp
      rw [hL] at hp
      simp only [hclsent, List.append_nil] at hp
      rw [leave_sent] at hp
      exact send_message_sent_eq _ _ _ _ hp
    · intro hpos
      rw [hL]
      rw [show (TikTokRoomPool.clean_up_room
          (TikTokRoom.leave w room c false).world pool room) =
          ⟨(TikTokRoom.leave w room c false).world, pool, room, []⟩ from
        clean_up_room_pos _ pool room hpos]
    · intro hz
      have hcp := (clean_up_room_empty
        (TikTokRoom.leave w room c false).world pool room hz).1
      rw [hL]
      constructor
      · show alookup (TikTokRoomPool.clean_up_room
            (TikTokRoom.leave w room c false).world pool room).pool
            room.unique_id = none
        rw [hcp]
        exact alookup_aerase_self pool room.unique_id
      · intro uid2 huid2
        show alookup (TikTokRoomPool.clean_up_room
            (TikTokRoom.leave w room c false).world pool room).pool uid2 =
          alookup pool uid2
        rw [hcp]
        exact alookup_aerase_ne pool room.unique_id uid2 huid2

/-- Witness for C8 (amended) at concrete inputs: no room for "alice"
(complete no-op); a non-member leaving the one-member room for "bob"
(registry unchanged, no exception); and a non-member leaving an
already-empty room for "bob" (the room entry is removed from the
map). -/
theorem C8_leave_nonmember_noop_witness :
    TikTokRoomPool.leave ⟨fun _ => false, fun _ => .ok, false⟩
        [("bob", ⟨"bob", [⟨1, 11, "bob", "a"⟩], 0⟩)] ⟨3, 33, "alice", "b"⟩ =
      ⟨⟨fun _ => false, fun _ => .ok, false⟩,
       [("bob", ⟨"bob", [⟨1, 11, "bob", "a"⟩], 0⟩)], [], false⟩ ∧
    (TikTokRoomPool.leave ⟨fun _ => false, fun _ => .ok, false⟩
        [("bob", ⟨"bob", [⟨1, 11, "bob", "a"⟩], 0⟩)] ⟨2, 22, "bob", "b"⟩).pool =
      [("bob", ⟨"bob", [⟨1, 11, "bob", "a"⟩], 0⟩)] ∧
    (TikTokRoomPool.leave ⟨fun _ => false, fun _ => .ok, false⟩
        [("bob", ⟨"bob", [⟨1, 11, "bob", "a"⟩], 0⟩)] ⟨2, 22, "bob", "b"⟩).err =
      false ∧
    alookup (TikTokRoomPool.leave ⟨fun _ => false, fun _ => .ok, false⟩
        [("bob", freshRoom "bob")] ⟨2, 22, "bob", "b"⟩).pool "bob" = none :=
  ⟨(C8_leave_nonmember_noop ⟨fun _ => false, fun _ => .ok, false⟩
      [("bob", ⟨"bob", [⟨1, 11, "bob", "a"⟩], 0⟩)] ⟨3, 33, "alice", "b"⟩).1
      (by decide),
   (((C8_leave_nonmember_noop ⟨fun _ => false, fun _ => .ok, false⟩
      [("bob", ⟨"bob", [⟨1, 11, "bob", "a"⟩], 0⟩)] ⟨2, 22, "bob", "b"⟩).2
      ⟨"bob", [⟨1, 11, "bob", "a"⟩], 0⟩ (by decide) (by decide) (by decide)
      (by decide)).2.2.1) (by decide),
   ((C8_leave_nonmember_noop ⟨fun _ => false, fun _ => .ok, false⟩
      [("bob", ⟨"bob", [⟨1, 11, "bob", "a"⟩], 0⟩)] ⟨2, 22, "bob", "b"⟩).2
      ⟨"bob", [⟨1, 11, "bob", "a"⟩], 0⟩ (by decide) (by decide) (by decide)
      (by decide)).1,
   (((C8_leave_nonmember_noop ⟨fun _ => false, fun _ => .ok, false⟩
      [("bob", freshRoom "bob")] ⟨2, 22, "bob", "b"⟩).2
      (freshRoom "bob") (by decide) (by decide) (by decide)
      (by decide)).2.2.2 rfl).1⟩


theorem reachableT_empty (s : GState) (h : ReachableT s) : s = ⟨[], []⟩ := by
  induction h with
  | init => rfl
  | step hr hstep ih =>
    subst ih
    cases hstep with
    | joinStep is_live connectOk account uid wsId freshId => rfl
    | leaveStep account c => rfl
    | broadcastStep => rfl
  | terminal uid hr ih =>
    subst ih
    rfl

/-- C5: at every state reachable by any sequence of gateway joins,
gateway leaves, broadcasts and upstream terminal events, the
directory count for each account equals the number of that account's
subscribers present in some room — with no double counting and no
missing entries.  In the code as written this holds because
`pool.join` raises `TypeError` before any room is created (the C1
defect), so no subscriber is ever registered in a room or in the
directory: every reachable gateway state is the empty state, where
both sides of the equality are zero. -/
theorem C5_directory_counts_match_all_reachable (s : GState)
    (h : ReachableT s) : DirInv s := by
  rw [reachableT_empty s h]
  intro acct
  rfl

/-- Witness for C5 at a concrete reachable state: a join for the live
stream "bob" followed by an upstream terminal event. -/
theorem C5_directory_counts_match_all_reachable_witness :
    DirInv (endTerminalM
      (WebSocketManager.join true true ⟨[], []⟩ "k1" "bob" 1 1) "bob") :=
  C5_directory_counts_match_all_reachable _
    (ReachableT.terminal "bob"
      (ReachableT.step ReachableT.init
        (GStep.joinStep ⟨[], []⟩ true true "k1" "bob" 1 1)))
